import Mathlib

/-!
# oiler-backup-base: environment getters and the Jobs creator

A shallow embedding of `servers/backup/envgetters.go` and
`servers/backup/jobs.go`, followed by the properties proved about them.

Conventions of the embedding:

* a Go slice that is only built and read front to back is a `List`; where the
  code can tell a nil slice from an empty one (JSON encoding) it is an
  `Option (List _)`, `none` being nil;
* a Go `int` is an `Int`;
* a Go interface is a record of its methods;
* a Go `error` is a value of `GoError`, `Option GoError` being a possibly nil
  error; a returned pointer is an `Option`, `none` being nil;
* calls to the cluster go through a client record over an explicit state, and
  every operation returns the list of requests it issued.
-/

set_option autoImplicit false

namespace Backup

/-! ## Kubernetes API types (k8s.io/api/core/v1), fields and JSON names as declared there -/

/-- ObjectFieldSelector of core/v1. -/
structure ObjectFieldSelector where
  APIVersion : String := ""
  FieldPath : String := ""
  deriving DecidableEq, Repr

/-- ResourceFieldSelector of core/v1; the divisor, a resource.Quantity, is kept as its canonical text. -/
structure ResourceFieldSelector where
  ContainerName : String := ""
  Resource : String := ""
  Divisor : String := "0"
  deriving DecidableEq, Repr

/-- ConfigMapKeySelector of core/v1 (the embedded LocalObjectReference contributes Name). -/
structure ConfigMapKeySelector where
  Name : String := ""
  Key : String := ""
  Optional : Option Bool := none
  deriving DecidableEq, Repr

/-- SecretKeySelector of core/v1 (the embedded LocalObjectReference contributes Name). -/
structure SecretKeySelector where
  Name : String := ""
  Key : String := ""
  Optional : Option Bool := none
  deriving DecidableEq, Repr

/-- EnvVarSource of core/v1: four optional pointers. -/
structure EnvVarSource where
  FieldRef : Option ObjectFieldSelector := none
  ResourceFieldRef : Option ResourceFieldSelector := none
  ConfigMapKeyRef : Option ConfigMapKeySelector := none
  SecretKeyRef : Option SecretKeySelector := none
  deriving DecidableEq, Repr

/-- EnvVar of core/v1. -/
structure EnvVar where
  Name : String := ""
  Value : String := ""
  ValueFrom : Option EnvVarSource := none
  deriving DecidableEq, Repr

/-! ## envgetters.go -/

/-- The interface EnvGetter: one method, GetEnvs. -/
structure EnvGetter where
  GetEnvs : Unit → List EnvVar

/-- The struct EnvGetterMerger. -/
structure EnvGetterMerger where
  envegetters : List EnvGetter

/-- The constructor NewEnvGetterMerger. -/
def NewEnvGetterMerger (envgetters : List EnvGetter) : EnvGetterMerger :=
  { envegetters := envgetters }

/-- The method EnvGetterMerger.GetEnvs: start from the empty slice and append
each getter's entries, in the order of the range loop. -/
def EnvGetterMerger.GetEnvs (egm : EnvGetterMerger) : List EnvVar :=
  egm.envegetters.foldl (fun envs getter => envs ++ getter.GetEnvs ()) []

/-- An EnvGetterMerger used as an EnvGetter. -/
def EnvGetterMerger.asEnvGetter (egm : EnvGetterMerger) : EnvGetter :=
  { GetEnvs := fun _ => egm.GetEnvs }

/-- The struct CommonEnvGetter. -/
structure CommonEnvGetter where
  DbUri : String := ""
  DbPort : String := ""
  DbUser : String := ""
  DbPass : String := ""
  DbName : String := ""
  S3Endpoint : String := ""
  S3AccessKey : String := ""
  S3SecretKey : String := ""
  S3BucketName : String := ""
  CoreAddr : String := ""
  deriving DecidableEq, Repr

/-- The method CommonEnvGetter.GetEnvs. -/
def CommonEnvGetter.GetEnvs (ceg : CommonEnvGetter) : List EnvVar :=
  [ { Name := "DB_HOST", Value := ceg.DbUri },
    { Name := "DB_PORT", Value := ceg.DbPort },
    { Name := "DB_USER", Value := ceg.DbUser },
    { Name := "DB_PASSWORD", Value := ceg.DbPass },
    { Name := "DB_NAME", Value := ceg.DbName },
    { Name := "S3_ENDPOINT", Value := ceg.S3Endpoint },
    { Name := "S3_ACCESS_KEY", Value := ceg.S3AccessKey },
    { Name := "S3_SECRET_KEY", Value := ceg.S3SecretKey },
    { Name := "S3_BUCKET_NAME", Value := ceg.S3BucketName },
    { Name := "CORE_ADDR", Value := ceg.CoreAddr } ]

/-- A CommonEnvGetter used as an EnvGetter. -/
def CommonEnvGetter.asEnvGetter (ceg : CommonEnvGetter) : EnvGetter :=
  { GetEnvs := fun _ => ceg.GetEnvs }

/-- The text fmt.Sprint gives for an int: the decimal digits, with a leading
minus sign for a negative number. -/
def fmtSprintInt (n : Int) : String :=
  match n with
  | Int.ofNat m => String.mk (Nat.toDigits 10 m)
  | Int.negSucc m => "-" ++ String.mk (Nat.toDigits 10 (m + 1))

/-- The struct BackuperEnvGetter. -/
structure BackuperEnvGetter where
  MaxBackupCount : Int := 0
  deriving DecidableEq, Repr

/-- The method BackuperEnvGetter.GetEnvs. -/
def BackuperEnvGetter.GetEnvs (beg : BackuperEnvGetter) : List EnvVar :=
  [ { Name := "MAX_BACKUP_COUNT", Value := fmtSprintInt beg.MaxBackupCount } ]

/-- A BackuperEnvGetter used as an EnvGetter. -/
def BackuperEnvGetter.asEnvGetter (beg : BackuperEnvGetter) : EnvGetter :=
  { GetEnvs := fun _ => beg.GetEnvs }

/-- The struct RestorerEnvGetter. -/
structure RestorerEnvGetter where
  BackupRevision : String := ""
  deriving DecidableEq, Repr

/-- The method RestorerEnvGetter.GetEnvs. -/
def RestorerEnvGetter.GetEnvs (reg : RestorerEnvGetter) : List EnvVar :=
  [ { Name := "BACKUP_REVISION", Value := reg.BackupRevision } ]

/-- A RestorerEnvGetter used as an EnvGetter. -/
def RestorerEnvGetter.asEnvGetter (reg : RestorerEnvGetter) : EnvGetter :=
  { GetEnvs := fun _ => reg.GetEnvs }

/-! ## Go errors and k8s.io/apimachinery/pkg/api/errors -/

/-- The type metav1.StatusReason is a string. -/
abbrev StatusReason := String

/-- StatusReasonUnknown of metav1. -/
def StatusReasonUnknown : StatusReason := ""

/-- StatusReasonNotFound of metav1. -/
def StatusReasonNotFound : StatusReason := "NotFound"

/-- StatusReasonAlreadyExists of metav1. -/
def StatusReasonAlreadyExists : StatusReason := "AlreadyExists"

/-- StatusReasonForbidden of metav1. -/
def StatusReasonForbidden : StatusReason := "Forbidden"

/-- The reasons api/errors lists as known (StatusReasonUnknown is not among them). -/
def knownReasons : List StatusReason :=
  [ "Unauthorized", "Forbidden", "NotFound", "AlreadyExists", "Conflict", "Gone", "Invalid",
    "ServerTimeout", "Timeout", "TooManyRequests", "BadRequest", "MethodNotAllowed",
    "NotAcceptable", "RequestEntityTooLarge", "UnsupportedMediaType", "InternalError",
    "Expired", "ServiceUnavailable" ]

/-- A Go error value: an API status error (reason, HTTP code, message), a plain
error made by errors.New or by fmt.Errorf without the verb w, or an error made
by fmt.Errorf with the verb w, which keeps its cause. Two errors are the same
error when they are equal as values. -/
inductive GoError where
  | statusError (reason : StatusReason) (code : Nat) (message : String)
  | errorString (text : String)
  | wrapError (text : String) (cause : GoError)
  deriving DecidableEq, Repr

/-- The method Error. -/
def GoError.Error : GoError → String
  | .statusError _ _ message => message
  | .errorString text => text
  | .wrapError text _ => text

/-- The method Unwrap, where the error has one. -/
def GoError.Unwrap : GoError → Option GoError
  | .wrapError _ cause => some cause
  | _ => none

/-- The function errors.Is on non-nil errors: the target is met somewhere along the chain of causes. -/
def errorsIs : GoError → GoError → Bool
  | .wrapError text cause, target =>
    decide (GoError.wrapError text cause = target) || errorsIs cause target
  | err, target => decide (err = target)

/-- The reason and code of the first status error along the chain of causes of
a non-nil error, otherwise unknown and 0. -/
def GoError.reasonAndCode : GoError → StatusReason × Nat
  | .statusError reason code _ => (reason, code)
  | .errorString _ => (StatusReasonUnknown, 0)
  | .wrapError _ cause => cause.reasonAndCode

/-- The function reasonAndCodeForError of api/errors; a nil error has the unknown reason and code 0. -/
def reasonAndCodeForError : Option GoError → StatusReason × Nat
  | none => (StatusReasonUnknown, 0)
  | some err => err.reasonAndCode

/-- The function apierrors.IsAlreadyExists. -/
def IsAlreadyExists (err : Option GoError) : Bool :=
  (reasonAndCodeForError err).1 == StatusReasonAlreadyExists

/-- The function apierrors.IsNotFound: the reason is NotFound, or the reason is
not a known one and the code is 404. -/
def IsNotFound (err : Option GoError) : Bool :=
  let rc := reasonAndCodeForError err
  if rc.1 == StatusReasonNotFound then true
  else if !(knownReasons.contains rc.1) && rc.2 == 404 then true
  else false

/-! ## encoding/json, as far as json.Marshal of the patch body goes -/

/-- A JSON document. A number is kept as its text. -/
inductive Json where
  | null
  | bool (b : Bool)
  | number (text : String)
  | string (s : String)
  | array (items : List Json)
  | object (members : List (String × Json))
  deriving Repr

/-- A Go value as json.Marshal sees it through reflection. A nil pointer,
slice, map or interface is nil, any other pointer is a value of its own, never
empty, that marshals as what it points to; a struct is the list of its exported fields with
the JSON name and the omitempty flag of each; a float that is NaN or infinite
has no text; a value whose type has a MarshalJSON method carries what that
method returns, nothing on an error. -/
inductive GoValue where
  | nil
  | bool (b : Bool)
  | int (n : Int)
  | float (text : Option String)
  | string (s : String)
  | slice (elems : List GoValue)
  | map (entries : List (String × GoValue))
  | struct (fields : List (String × Bool × GoValue))
  | pointer (target : GoValue)
  | marshaler (out : Option Json)
  | chan
  | func
  deriving Repr

/-- The errors of json.Marshal. -/
inductive MarshalError where
  | UnsupportedTypeError
  | UnsupportedValueError
  | MarshalerError
  deriving DecidableEq, Repr

/-- Byte order on two texts, as lists of characters. -/
def ltChars : List Char → List Char → Bool
  | _, [] => false
  | [], _ :: _ => true
  | a :: as, b :: bs =>
    if a.toNat < b.toNat then true else if b.toNat < a.toNat then false else ltChars as bs

/-- The order in which json.Marshal emits the keys of a map. -/
def keyLess (a b : String) : Bool := ltChars a.data b.data

/-- Insert a member into a key-sorted member list. -/
def insertMember (k : String) (v : Json) : List (String × Json) → List (String × Json)
  | [] => [(k, v)]
  | (k2, v2) :: rest =>
    if keyLess k k2 then (k, v) :: (k2, v2) :: rest else (k2, v2) :: insertMember k v rest

/-- The function isEmptyValue of encoding/json, which decides omitempty: false,
zero, the empty text, nil and a slice or map of length 0 are empty; a non-nil
pointer, a struct and a value with its own MarshalJSON are not. -/
def isEmptyValue : GoValue → Bool
  | .nil => true
  | .bool b => !b
  | .int n => n == 0
  | .float text => text == some "0"
  | .string s => s == ""
  | .slice elems => elems.isEmpty
  | .map entries => entries.isEmpty
  | _ => false

mutual
/-- The function json.Marshal, up to the bytes of the document: channels and
functions are unsupported types, NaN and infinite floats unsupported values,
map keys come out sorted, struct fields in declaration order without the empty
omitempty ones. -/
def jsonMarshal : GoValue → Except MarshalError Json
  | .nil => .ok .null
  | .bool b => .ok (.bool b)
  | .int n => .ok (.number (fmtSprintInt n))
  | .float none => .error .UnsupportedValueError
  | .float (some text) => .ok (.number text)
  | .string s => .ok (.string s)
  | .slice elems => (marshalElems elems).map Json.array
  | .map entries => (marshalEntries entries).map Json.object
  | .struct fields => (marshalFields fields).map Json.object
  | .pointer target => jsonMarshal target
  | .marshaler none => .error .MarshalerError
  | .marshaler (some j) => .ok j
  | .chan => .error .UnsupportedTypeError
  | .func => .error .UnsupportedTypeError
termination_by structural v => v
/-- The elements of a slice, in order. -/
def marshalElems : List GoValue → Except MarshalError (List Json)
  | [] => .ok []
  | x :: xs => do
    let j ← jsonMarshal x
    let js ← marshalElems xs
    pure (j :: js)
termination_by structural v => v
/-- The entries of a map, sorted by key. -/
def marshalEntries : List (String × GoValue) → Except MarshalError (List (String × Json))
  | [] => .ok []
  | (k, x) :: xs => do
    let j ← jsonMarshal x
    let js ← marshalEntries xs
    pure (insertMember k j js)
termination_by structural v => v
/-- The fields of a struct, in declaration order. -/
def marshalFields : List (String × Bool × GoValue) → Except MarshalError (List (String × Json))
  | [] => .ok []
  | (k, omitempty, x) :: xs =>
    if omitempty && isEmptyValue x then marshalFields xs
    else do
      let j ← jsonMarshal x
      let js ← marshalFields xs
      pure ((k, j) :: js)
termination_by structural v => v
end

/-- A pointer under reflection: nil, or a pointer to the value. -/
def pointerValue {α : Type} (f : α → GoValue) : Option α → GoValue
  | none => .nil
  | some a => .pointer (f a)

/-- ObjectFieldSelector under reflection. -/
def ObjectFieldSelector.toGoValue (x : ObjectFieldSelector) : GoValue :=
  .struct [("apiVersion", true, .string x.APIVersion), ("fieldPath", false, .string x.FieldPath)]

/-- ResourceFieldSelector under reflection; Quantity has a MarshalJSON method
that returns its canonical text as a JSON string and no error. -/
def ResourceFieldSelector.toGoValue (x : ResourceFieldSelector) : GoValue :=
  .struct [("containerName", true, .string x.ContainerName),
           ("resource", false, .string x.Resource),
           ("divisor", true, .marshaler (some (.string x.Divisor)))]

/-- ConfigMapKeySelector under reflection. -/
def ConfigMapKeySelector.toGoValue (x : ConfigMapKeySelector) : GoValue :=
  .struct [("name", true, .string x.Name), ("key", false, .string x.Key),
           ("optional", true, pointerValue GoValue.bool x.Optional)]

/-- SecretKeySelector under reflection. -/
def SecretKeySelector.toGoValue (x : SecretKeySelector) : GoValue :=
  .struct [("name", true, .string x.Name), ("key", false, .string x.Key),
           ("optional", true, pointerValue GoValue.bool x.Optional)]

/-- EnvVarSource under reflection. -/
def EnvVarSource.toGoValue (x : EnvVarSource) : GoValue :=
  .struct [("fieldRef", true, pointerValue ObjectFieldSelector.toGoValue x.FieldRef),
           ("resourceFieldRef", true, pointerValue ResourceFieldSelector.toGoValue x.ResourceFieldRef),
           ("configMapKeyRef", true, pointerValue ConfigMapKeySelector.toGoValue x.ConfigMapKeyRef),
           ("secretKeyRef", true, pointerValue SecretKeySelector.toGoValue x.SecretKeyRef)]

/-- EnvVar under reflection. -/
def EnvVar.toGoValue (x : EnvVar) : GoValue :=
  .struct [("name", false, .string x.Name), ("value", true, .string x.Value),
           ("valueFrom", true, pointerValue EnvVarSource.toGoValue x.ValueFrom)]

/-- A slice of EnvVar under reflection: nil stays nil. -/
def envVarsValue : Option (List EnvVar) → GoValue
  | none => .nil
  | some envs => .slice (envs.map EnvVar.toGoValue)

/-! ## Cluster objects and the client interface -/

/-- A container of a pod template: the fields this package names. -/
structure Container where
  Name : String := ""
  Env : List EnvVar := []
  deriving DecidableEq, Repr

/-- The type batchv1.Job: its identity and the containers of its pod template;
the zero value is the empty object. -/
structure Job where
  Name : String := ""
  Namespace : String := ""
  Containers : List Container := []
  deriving DecidableEq, Repr

/-- The type batchv1.CronJob: its identity, its schedule and the containers of
the pod template of its job template; the zero value is the empty object. -/
structure CronJob where
  Name : String := ""
  Namespace : String := ""
  Schedule : String := ""
  Containers : List Container := []
  deriving DecidableEq, Repr

/-- The type types.PatchType. -/
inductive PatchType where
  | JSONPatchType
  | MergePatchType
  | StrategicMergePatchType
  | ApplyPatchType
  deriving DecidableEq, Repr

/-- The interface IKubeClient, declared outside these source files, as far as
this package calls it: Get and Create on Jobs(namespace), and Get, Create and
Patch on CronJobs(namespace), of BatchV1(). Each call returns a pointer and an
error and may change the state behind the client. The context and the empty
option structs are left out. -/
structure IKubeClient (σ : Type) where
  JobsGet : String → String → σ → (Option Job × Option GoError) × σ
  JobsCreate : String → Job → σ → (Option Job × Option GoError) × σ
  CronJobsGet : String → String → σ → (Option CronJob × Option GoError) × σ
  CronJobsCreate : String → CronJob → σ → (Option CronJob × Option GoError) × σ
  CronJobsPatch : String → String → PatchType → Json → σ → (Option CronJob × Option GoError) × σ

/-- A request issued to the cluster API. -/
inductive Request where
  | JobsGet (ns name : String)
  | JobsCreate (ns : String) (job : Job)
  | CronJobsGet (ns name : String)
  | CronJobsCreate (ns : String) (cronJob : CronJob)
  | CronJobsPatch (ns name : String) (pt : PatchType) (data : Json)
  deriving Repr

/-- The way a Go call ends: it returns its results or it panics. -/
inductive GoResult (α : Type) where
  | returned (results : α)
  | panicked (reason : String)
  deriving DecidableEq, Repr

/-- A run of an operation: how it ended, the state it left behind the client
and the requests it issued, in order. -/
structure Run (σ α : Type) where
  result : GoResult α
  state : σ
  requests : List Request

/-- The runtime panic on reading a field through a nil pointer. -/
def nilDereference : String := "invalid memory address or nil pointer dereference"

/-! ## jobs.go -/

/-- The package variable ErrAlreadyExists. -/
def ErrAlreadyExists : GoError := .errorString "already exists"

/-- The struct JobsCreator. -/
structure JobsCreator (σ : Type) where
  kubeClient : IKubeClient σ

/-- The constructor NewJobsCreator. -/
def NewJobsCreator {σ : Type} (kubeClient : IKubeClient σ) : JobsCreator σ :=
  { kubeClient := kubeClient }

/-- The method JobsCreator.CreateJob; jobSpec is a non-nil pointer. -/
def JobsCreator.CreateJob {σ : Type} (jc : JobsCreator σ) (jobSpec : Job) (s : σ) :
    Run σ (String × String × Option GoError) :=
  match jc.kubeClient.JobsGet jobSpec.Namespace jobSpec.Name s with
  | ((exCj, err), s1) =>
    let sent := [Request.JobsGet jobSpec.Namespace jobSpec.Name]
    if IsAlreadyExists err then
      match exCj with
      | none => ⟨.panicked nilDereference, s1, sent⟩
      | some ex => ⟨.returned (ex.Name, ex.Namespace, some ErrAlreadyExists), s1, sent⟩
    else
      match err, IsNotFound err with
      | some e, false =>
        ⟨.returned ("", "", some (.wrapError
            ("failed to check cj " ++ jobSpec.Name ++ " existence: " ++ e.Error) e)), s1, sent⟩
      | _, _ =>
        match jc.kubeClient.JobsCreate jobSpec.Namespace jobSpec s1 with
        | ((generatedJob, err2), s2) =>
          let sent2 := sent ++ [Request.JobsCreate jobSpec.Namespace jobSpec]
          match err2 with
          | some e2 =>
            ⟨.returned ("", "", some (.wrapError ("failed to create Job: " ++ e2.Error) e2)),
              s2, sent2⟩
          | none =>
            match generatedJob with
            | none => ⟨.panicked nilDereference, s2, sent2⟩
            | some g => ⟨.returned (g.Name, g.Namespace, none), s2, sent2⟩

/-- The method JobsCreator.CreateCronJob; cronJobSpec is a non-nil pointer. The
failed existence check is formatted with the verb +v, which prints the text of
the error and keeps no cause. -/
def JobsCreator.CreateCronJob {σ : Type} (jc : JobsCreator σ) (cronJobSpec : CronJob) (s : σ) :
    Run σ (String × String × Option GoError) :=
  match jc.kubeClient.CronJobsGet cronJobSpec.Namespace cronJobSpec.Name s with
  | ((exCj, err), s1) =>
    let sent := [Request.CronJobsGet cronJobSpec.Namespace cronJobSpec.Name]
    if IsAlreadyExists err then
      match exCj with
      | none => ⟨.panicked nilDereference, s1, sent⟩
      | some ex => ⟨.returned (ex.Name, ex.Namespace, some ErrAlreadyExists), s1, sent⟩
    else
      match err, IsNotFound err with
      | some e, false =>
        ⟨.returned ("", "", some (.errorString
            ("failed to check cj " ++ cronJobSpec.Name ++ " existence: " ++ e.Error))), s1, sent⟩
      | _, _ =>
        match jc.kubeClient.CronJobsCreate cronJobSpec.Namespace cronJobSpec s1 with
        | ((generatedJob, err2), s2) =>
          let sent2 := sent ++ [Request.CronJobsCreate cronJobSpec.Namespace cronJobSpec]
          if IsAlreadyExists err2 then
            match exCj with
            | none => ⟨.panicked nilDereference, s2, sent2⟩
            | some ex => ⟨.returned (ex.Name, ex.Namespace, some ErrAlreadyExists), s2, sent2⟩
          else
            match err2 with
            | some e2 =>
              ⟨.returned ("", "", some (.wrapError ("failed to create CronJob: " ++ e2.Error) e2)),
                s2, sent2⟩
            | none =>
              match generatedJob with
              | none => ⟨.panicked nilDereference, s2, sent2⟩
              | some g => ⟨.returned (g.Name, g.Namespace, none), s2, sent2⟩

/-- The patch literal of UpdateCronJob: nested maps with string keys down to a
slice holding one map with the keys name and env. -/
def patchLiteral (newEnvs : Option (List EnvVar)) : GoValue :=
  .map [("spec", .map [("jobTemplate", .map [("spec", .map [("template", .map [("spec",
    .map [("containers", .slice [
      .map [("name", .string "backup-job"), ("env", envVarsValue newEnvs)] ])])])])])])]

/-- The method JobsCreator.UpdateCronJob: marshal the patch literal, panic if
that fails, otherwise send it as a strategic merge patch and return the error of
the call. -/
def JobsCreator.UpdateCronJob {σ : Type} (jc : JobsCreator σ)
    (cronJobName cronJobNamespace : String) (newEnvs : Option (List EnvVar)) (s : σ) :
    Run σ (Option GoError) :=
  match jsonMarshal (patchLiteral newEnvs) with
  | .error _ => ⟨.panicked "json.Marshal", s, []⟩
  | .ok patchBytes =>
    match jc.kubeClient.CronJobsPatch cronJobNamespace cronJobName
        PatchType.StrategicMergePatchType patchBytes s with
    | ((_, err), s1) =>
      let sent := [Request.CronJobsPatch cronJobNamespace cronJobName
        PatchType.StrategicMergePatchType patchBytes]
      match err with
      | some e => ⟨.returned (some e), s1, sent⟩
      | none => ⟨.returned none, s1, sent⟩

/-- The patch document UpdateCronJob is to send, around the JSON of the
environment list: one object per level from spec down to containers, whose
array holds one object with the members env and name. -/
def patchDocument (env : Json) : Json :=
  .object [("spec", .object [("jobTemplate", .object [("spec", .object [("template",
    .object [("spec", .object [("containers", .array [
      .object [("env", env), ("name", .string "backup-job")] ])])])])])])]

/-! ## A control plane behind the client -/

/-- The state of the control plane: the Jobs and CronJobs it stores. -/
structure Cluster where
  jobs : List Job := []
  cronJobs : List CronJob := []
  deriving DecidableEq, Repr

/-- The stored Job with the given namespace and name, if any. -/
def Cluster.findJob (c : Cluster) (ns name : String) : Option Job :=
  c.jobs.find? (fun j => j.Namespace == ns && j.Name == name)

/-- The stored CronJob with the given namespace and name, if any. -/
def Cluster.findCronJob (c : Cluster) (ns name : String) : Option CronJob :=
  c.cronJobs.find? (fun j => j.Namespace == ns && j.Name == name)

/-- The status error of a missing object. -/
def notFoundError (resource name : String) : GoError :=
  .statusError StatusReasonNotFound 404 (resource ++ " " ++ name ++ " not found")

/-- The status error of a create that meets an object of the same identity. -/
def alreadyExistsError (resource name : String) : GoError :=
  .statusError StatusReasonAlreadyExists 409 (resource ++ " " ++ name ++ " already exists")

/-- The member of a JSON object under a key, if the document is an object that has it. -/
def Json.member? : Json → String → Option Json
  | .object members, k => (members.find? (fun m => m.1 == k)).map (fun m => m.2)
  | _, _ => none

/-- The text under a key of a patch object, or the old text when the patch has none there. -/
def pickText (p : Json) (k : String) (old : String) : String :=
  match p.member? k with
  | some (.string t) => t
  | _ => old

/-- A pointer field under a patch: kept when the patch lacks the key, cleared by
null, otherwise the old target (or the zero value) merged with the patch value. -/
def mergePointer {α : Type} (merge : α → Json → α) (zero : α) (old : Option α) (p : Json)
    (k : String) : Option α :=
  match p.member? k with
  | none => old
  | some .null => none
  | some j => some (merge (old.getD zero) j)

/-- An optional boolean under a patch. -/
def pickOptionalBool (p : Json) (k : String) (old : Option Bool) : Option Bool :=
  match p.member? k with
  | some (.bool b) => some b
  | some .null => none
  | _ => old

/-- Field by field merge of a patch object into an ObjectFieldSelector. -/
def mergeObjectFieldSelector (old : ObjectFieldSelector) (p : Json) : ObjectFieldSelector :=
  { APIVersion := pickText p "apiVersion" old.APIVersion,
    FieldPath := pickText p "fieldPath" old.FieldPath }

/-- Field by field merge of a patch object into a ResourceFieldSelector. -/
def mergeResourceFieldSelector (old : ResourceFieldSelector) (p : Json) : ResourceFieldSelector :=
  { ContainerName := pickText p "containerName" old.ContainerName,
    Resource := pickText p "resource" old.Resource,
    Divisor := pickText p "divisor" old.Divisor }

/-- Field by field merge of a patch object into a ConfigMapKeySelector. -/
def mergeConfigMapKeySelector (old : ConfigMapKeySelector) (p : Json) : ConfigMapKeySelector :=
  { Name := pickText p "name" old.Name,
    Key := pickText p "key" old.Key,
    Optional := pickOptionalBool p "optional" old.Optional }

/-- Field by field merge of a patch object into a SecretKeySelector. -/
def mergeSecretKeySelector (old : SecretKeySelector) (p : Json) : SecretKeySelector :=
  { Name := pickText p "name" old.Name,
    Key := pickText p "key" old.Key,
    Optional := pickOptionalBool p "optional" old.Optional }

/-- Field by field merge of a patch object into an EnvVarSource. -/
def mergeEnvVarSource (old : EnvVarSource) (p : Json) : EnvVarSource :=
  { FieldRef := mergePointer mergeObjectFieldSelector {} old.FieldRef p "fieldRef",
    ResourceFieldRef :=
      mergePointer mergeResourceFieldSelector {} old.ResourceFieldRef p "resourceFieldRef",
    ConfigMapKeyRef :=
      mergePointer mergeConfigMapKeySelector {} old.ConfigMapKeyRef p "configMapKeyRef",
    SecretKeyRef := mergePointer mergeSecretKeySelector {} old.SecretKeyRef p "secretKeyRef" }

/-- Field by field merge of a patch object into an EnvVar; merged into the
zero value it decodes the patch object. -/
def mergeEnvVar (old : EnvVar) (p : Json) : EnvVar :=
  { Name := pickText p "name" old.Name,
    Value := pickText p "value" old.Value,
    ValueFrom := mergePointer mergeEnvVarSource {} old.ValueFrom p "valueFrom" }

/-- Merge one patch entry into an environment list by the merge key name: the
first entry of that name is merged with it, and without one it is appended. -/
def mergeEnvEntry (p : Json) : List EnvVar → List EnvVar
  | [] => [mergeEnvVar {} p]
  | e :: rest =>
    if e.Name == pickText p "name" "" then mergeEnvVar e p :: rest
    else e :: mergeEnvEntry p rest

/-- Merge the patch entries into an environment list, one after the other. -/
def mergeEnvList (old : List EnvVar) (patch : List Json) : List EnvVar :=
  patch.foldl (fun envs p => mergeEnvEntry p envs) old

/-- Merge a patch object into a container: the env member is left alone when
absent, cleared by null, and merged by name when it is an array. -/
def mergeContainer (old : Container) (p : Json) : Container :=
  { Name := pickText p "name" old.Name,
    Env :=
      match p.member? "env" with
      | some .null => []
      | some (.array items) => mergeEnvList old.Env items
      | _ => old.Env }

/-- Merge one patch entry into a container list by the merge key name. -/
def mergeContainerEntry (p : Json) : List Container → List Container
  | [] => [mergeContainer {} p]
  | c :: rest =>
    if c.Name == pickText p "name" "" then mergeContainer c p :: rest
    else c :: mergeContainerEntry p rest

/-- The containers member of a patch document, under
spec.jobTemplate.spec.template.spec. -/
def patchedContainers (doc : Json) : Option Json :=
  (((((doc.member? "spec").bind (fun j => j.member? "jobTemplate")).bind
    (fun j => j.member? "spec")).bind (fun j => j.member? "template")).bind
    (fun j => j.member? "spec")).bind (fun j => j.member? "containers")

/-- Kubernetes' strategic merge of a patch document into a CronJob, as far as
the modelled fields go: the lists containers and env are declared in
k8s.io/api/core/v1 with the patch strategy merge and the merge key name, so a
patch entry is merged into the entry of the same name and entries the patch does
not name stay. Patch types other than the strategic merge, which this package
does not send, leave the object as it is. -/
def strategicMergePatch : PatchType → Json → CronJob → CronJob
  | .StrategicMergePatchType, doc, cj =>
    match patchedContainers doc with
    | some .null => { cj with Containers := [] }
    | some (.array items) =>
      { cj with Containers := items.foldl (fun cs p => mergeContainerEntry p cs) cj.Containers }
    | _ => cj
  | _, _, cj => cj

/-- Modelled from the spec: the cluster control plane behind IKubeClient, which
is not part of these source files. The identity (name, namespace) is the sole
key: Get returns the stored object, or a not-found error with an empty object;
Create stores the object under the namespace of the request and returns it, or
reports already-exists with an empty object when one of that identity is stored;
Patch reports not-found for a missing object and otherwise stores and returns
what the given patch application makes of the stored object. How a patch
document is applied is the control plane's own business and stays a parameter. -/
def clusterClient (applyPatch : PatchType → Json → CronJob → CronJob) : IKubeClient Cluster where
  JobsGet ns name c :=
    match c.findJob ns name with
    | some j => ((some j, none), c)
    | none => ((some {}, some (notFoundError "jobs.batch" name)), c)
  JobsCreate ns job c :=
    match c.findJob ns job.Name with
    | some _ => ((some {}, some (alreadyExistsError "jobs.batch" job.Name)), c)
    | none =>
      let stored : Job := { job with Namespace := ns }
      ((some stored, none), { c with jobs := c.jobs ++ [stored] })
  CronJobsGet ns name c :=
    match c.findCronJob ns name with
    | some j => ((some j, none), c)
    | none => ((some {}, some (notFoundError "cronjobs.batch" name)), c)
  CronJobsCreate ns cronJob c :=
    match c.findCronJob ns cronJob.Name with
    | some _ => ((some {}, some (alreadyExistsError "cronjobs.batch" cronJob.Name)), c)
    | none =>
      let stored : CronJob := { cronJob with Namespace := ns }
      ((some stored, none), { c with cronJobs := c.cronJobs ++ [stored] })
  CronJobsPatch ns name pt data c :=
    match c.findCronJob ns name with
    | none => ((some {}, some (notFoundError "cronjobs.batch" name)), c)
    | some j =>
      let applied : CronJob := applyPatch pt data j
      let patched : CronJob := { applied with Name := name, Namespace := ns }
      let stored : List CronJob :=
        c.cronJobs.map (fun x => if x.Namespace == ns && x.Name == name then patched else x)
      ((some patched, none), { c with cronJobs := stored })

/-- A client whose existence queries are followed, before the caller's next
request, by the requests of a concurrent creator: rival is what that creator
does to the cluster between the two. -/
def racingClient (inner : IKubeClient Cluster) (rival : Cluster → Cluster) : IKubeClient Cluster where
  JobsGet ns name c :=
    match inner.JobsGet ns name c with
    | (answer, c1) => (answer, rival c1)
  JobsCreate := inner.JobsCreate
  CronJobsGet ns name c :=
    match inner.CronJobsGet ns name c with
    | (answer, c1) => (answer, rival c1)
  CronJobsCreate := inner.CronJobsCreate
  CronJobsPatch := inner.CronJobsPatch

/-- What a concurrent creator of the given Job does to the cluster. -/
def rivalCreatesJob (job : Job) : Cluster → Cluster :=
  fun c => ((clusterClient strategicMergePatch).JobsCreate job.Namespace job c).2

/-- What a concurrent creator of the given CronJob does to the cluster. -/
def rivalCreatesCronJob (cronJob : CronJob) : Cluster → Cluster :=
  fun c => ((clusterClient strategicMergePatch).CronJobsCreate cronJob.Namespace cronJob c).2

/-- A client every request of which fails with the given error, as against an
API server that rejects or cannot serve the caller; the pointers are to empty objects. -/
def failingClient (e : GoError) : IKubeClient Unit where
  JobsGet _ _ u := ((some {}, some e), u)
  JobsCreate _ _ u := ((some {}, some e), u)
  CronJobsGet _ _ u := ((some {}, some e), u)
  CronJobsCreate _ _ u := ((some {}, some e), u)
  CronJobsPatch _ _ _ _ u := ((some {}, some e), u)

/-! ## Properties of the environment getters -/

/-- The append loop of the merger, started from any accumulator, adds the
concatenation of the getters' entries behind it. -/
theorem foldl_append_getters (gs : List EnvGetter) (acc : List EnvVar) :
    gs.foldl (fun envs getter => envs ++ getter.GetEnvs ()) acc
      = acc ++ (gs.map (fun g => g.GetEnvs ())).flatten := by
  induction gs generalizing acc with
  | nil => simp
  | cons g rest ih => simp [List.foldl_cons, ih, List.append_assoc]

/-- The rendering of fmtSprintInt is the standard decimal text of the integer. -/
theorem fmtSprintInt_eq_toString (n : Int) : fmtSprintInt n = toString n := by
  cases n <;> rfl

/-- C1: the merger of an ordered list of getters yields the concatenation of
the getters' entries in list order; for two getters A and B it yields
A.GetEnvs ++ B.GetEnvs, so nothing is dropped, reordered or deduplicated (the
length is the sum of the lengths, also when both emit the same entries); and a
merger nested among the members yields what the flattened list of getters
yields. -/
theorem merger_GetEnvs_is_concatenation :
    (∀ gs : List EnvGetter,
        (NewEnvGetterMerger gs).GetEnvs = (gs.map (fun g => g.GetEnvs ())).flatten)
    ∧ (∀ A B : EnvGetter,
        (NewEnvGetterMerger [A, B]).GetEnvs = A.GetEnvs () ++ B.GetEnvs ()
        ∧ (NewEnvGetterMerger [A, B]).GetEnvs.length
            = (A.GetEnvs ()).length + (B.GetEnvs ()).length)
    ∧ (∀ A : EnvGetter,
        (NewEnvGetterMerger [A, A]).GetEnvs = A.GetEnvs () ++ A.GetEnvs ())
    ∧ (∀ before inner after : List EnvGetter,
        (NewEnvGetterMerger
            (before ++ (NewEnvGetterMerger inner).asEnvGetter :: after)).GetEnvs
          = (NewEnvGetterMerger (before ++ inner ++ after)).GetEnvs) := by
  have hcat : ∀ gs : List EnvGetter,
      (NewEnvGetterMerger gs).GetEnvs = (gs.map (fun g => g.GetEnvs ())).flatten := by
    intro gs
    simp [NewEnvGetterMerger, EnvGetterMerger.GetEnvs, foldl_append_getters]
  refine ⟨hcat, ?_, ?_, ?_⟩
  · intro A B
    simp [hcat]
  · intro A
    simp [hcat]
  · intro before inner after
    simp [hcat, EnvGetterMerger.asEnvGetter]

/-- C10: the merger of a CommonEnvGetter and a BackuperEnvGetter holding n
yields exactly eleven entries: the ten common names in their fixed order, each
carrying its field (an unset field gives an entry with the empty string), then
MAX_BACKUP_COUNT with the decimal text of n; for DbUri "db", DbPort "5432" and
n = 7 the first two entries are DB_HOST=db and DB_PORT=5432 and the last is
MAX_BACKUP_COUNT=7. -/
theorem common_backuper_merge_eleven_entries :
    (∀ (c : CommonEnvGetter) (n : Int),
        (NewEnvGetterMerger
            [c.asEnvGetter, (BackuperEnvGetter.mk n).asEnvGetter]).GetEnvs
          = [ { Name := "DB_HOST", Value := c.DbUri },
              { Name := "DB_PORT", Value := c.DbPort },
              { Name := "DB_USER", Value := c.DbUser },
              { Name := "DB_PASSWORD", Value := c.DbPass },
              { Name := "DB_NAME", Value := c.DbName },
              { Name := "S3_ENDPOINT", Value := c.S3Endpoint },
              { Name := "S3_ACCESS_KEY", Value := c.S3AccessKey },
              { Name := "S3_SECRET_KEY", Value := c.S3SecretKey },
              { Name := "S3_BUCKET_NAME", Value := c.S3BucketName },
              { Name := "CORE_ADDR", Value := c.CoreAddr },
              { Name := "MAX_BACKUP_COUNT", Value := toString n } ]
        ∧ (NewEnvGetterMerger
            [c.asEnvGetter, (BackuperEnvGetter.mk n).asEnvGetter]).GetEnvs.length = 11)
    ∧ (NewEnvGetterMerger
          [({} : CommonEnvGetter).asEnvGetter, (BackuperEnvGetter.mk 0).asEnvGetter]).GetEnvs
        = [ { Name := "DB_HOST", Value := "" },
            { Name := "DB_PORT", Value := "" },
            { Name := "DB_USER", Value := "" },
            { Name := "DB_PASSWORD", Value := "" },
            { Name := "DB_NAME", Value := "" },
            { Name := "S3_ENDPOINT", Value := "" },
            { Name := "S3_ACCESS_KEY", Value := "" },
            { Name := "S3_SECRET_KEY", Value := "" },
            { Name := "S3_BUCKET_NAME", Value := "" },
            { Name := "CORE_ADDR", Value := "" },
            { Name := "MAX_BACKUP_COUNT", Value := "0" } ]
    ∧ (∀ user pass name endpoint access secret bucket core : String,
        (NewEnvGetterMerger
            [(CommonEnvGetter.mk "db" "5432" user pass name endpoint access secret bucket
                core).asEnvGetter,
             (BackuperEnvGetter.mk 7).asEnvGetter]).GetEnvs.take 2
          = [ { Name := "DB_HOST", Value := "db" }, { Name := "DB_PORT", Value := "5432" } ]
        ∧ (NewEnvGetterMerger
            [(CommonEnvGetter.mk "db" "5432" user pass name endpoint access secret bucket
                core).asEnvGetter,
             (BackuperEnvGetter.mk 7).asEnvGetter]).GetEnvs.getLast?
          = some { Name := "MAX_BACKUP_COUNT", Value := "7" }) := by
  refine ⟨?_, ?_, ?_⟩
  · intro c n
    simp [NewEnvGetterMerger, EnvGetterMerger.GetEnvs, CommonEnvGetter.asEnvGetter,
      BackuperEnvGetter.asEnvGetter, CommonEnvGetter.GetEnvs, BackuperEnvGetter.GetEnvs,
      fmtSprintInt_eq_toString]
  · simp [NewEnvGetterMerger, EnvGetterMerger.GetEnvs, CommonEnvGetter.asEnvGetter,
      BackuperEnvGetter.asEnvGetter, CommonEnvGetter.GetEnvs, BackuperEnvGetter.GetEnvs]
    rfl
  · intro user pass name endpoint access secret bucket core
    simp [NewEnvGetterMerger, EnvGetterMerger.GetEnvs, CommonEnvGetter.asEnvGetter,
      BackuperEnvGetter.asEnvGetter, CommonEnvGetter.GetEnvs, BackuperEnvGetter.GetEnvs]
    rfl

/-! ## Properties of the Jobs creator -/

/-- No error is no already-exists error. -/
theorem IsAlreadyExists_nil : IsAlreadyExists none = false := by decide

/-- No error is no not-found error. -/
theorem IsNotFound_nil : IsNotFound none = false := by decide

/-- The not-found status error is a not-found error and no already-exists error. -/
theorem notFoundError_kind (resource name : String) :
    IsNotFound (some (notFoundError resource name)) = true
    ∧ IsAlreadyExists (some (notFoundError resource name)) = false := by
  constructor <;> rfl

/-- The already-exists status error is an already-exists error and no not-found error. -/
theorem alreadyExistsError_kind (resource name : String) :
    IsAlreadyExists (some (alreadyExistsError resource name)) = true
    ∧ IsNotFound (some (alreadyExistsError resource name)) = false := by
  constructor <;> rfl

/-- Whenever the existence query of CreateJob answers with an object and no
error, CreateJob goes on to issue the create request. -/
theorem CreateJob_found_still_creates {σ : Type} (kc : IKubeClient σ) (s s1 : σ)
    (jobSpec ex : Job)
    (hget : kc.JobsGet jobSpec.Namespace jobSpec.Name s = ((some ex, none), s1)) :
    ((NewJobsCreator kc).CreateJob jobSpec s).requests
      = [Request.JobsGet jobSpec.Namespace jobSpec.Name,
         Request.JobsCreate jobSpec.Namespace jobSpec] := by
  rcases hc : kc.JobsCreate jobSpec.Namespace jobSpec s1 with ⟨⟨g, err2⟩, s2⟩
  cases err2 <;> cases g <;>
    simp [JobsCreator.CreateJob, NewJobsCreator, hget, hc, IsAlreadyExists_nil]

/-- Whenever the existence query of CreateCronJob answers with an object and no
error, CreateCronJob goes on to issue the create request. -/
theorem CreateCronJob_found_still_creates {σ : Type} (kc : IKubeClient σ) (s s1 : σ)
    (cronJobSpec ex : CronJob)
    (hget : kc.CronJobsGet cronJobSpec.Namespace cronJobSpec.Name s = ((some ex, none), s1)) :
    ((NewJobsCreator kc).CreateCronJob cronJobSpec s).requests
      = [Request.CronJobsGet cronJobSpec.Namespace cronJobSpec.Name,
         Request.CronJobsCreate cronJobSpec.Namespace cronJobSpec] := by
  rcases hc : kc.CronJobsCreate cronJobSpec.Namespace cronJobSpec s1 with ⟨⟨g, err2⟩, s2⟩
  cases err2 <;> cases g <;>
    simp [JobsCreator.CreateCronJob, NewJobsCreator, hget, hc, IsAlreadyExists_nil] <;>
    split <;> rfl

/-- For every client: when the existence query of CreateJob reports not-found
and the create request then fails, with an already-exists conflict or anything
else, CreateJob returns the empty identity and the wrapped creation failure. -/
theorem CreateJob_create_error_after_not_found {σ : Type} (kc : IKubeClient σ) (s s1 s2 : σ)
    (jobSpec : Job) (exCj generatedJob : Option Job) (e e2 : GoError)
    (hget : kc.JobsGet jobSpec.Namespace jobSpec.Name s = ((exCj, some e), s1))
    (hnf : IsNotFound (some e) = true) (hae : IsAlreadyExists (some e) = false)
    (hcreate : kc.JobsCreate jobSpec.Namespace jobSpec s1 = ((generatedJob, some e2), s2)) :
    ((NewJobsCreator kc).CreateJob jobSpec s).result
      = .returned ("", "", some (.wrapError ("failed to create Job: " ++ e2.Error) e2)) := by
  simp [JobsCreator.CreateJob, NewJobsCreator, hget, hnf, hae, hcreate]

/-- For every client: when the existence query of CreateCronJob reports
not-found and the create request then reports an already-exists conflict,
CreateCronJob returns ErrAlreadyExists with the name and namespace read from the
pointer the failed query returned. -/
theorem CreateCronJob_conflict_after_not_found {σ : Type} (kc : IKubeClient σ) (s s1 s2 : σ)
    (cronJobSpec ex : CronJob) (generatedJob : Option CronJob) (e e2 : GoError)
    (hget : kc.CronJobsGet cronJobSpec.Namespace cronJobSpec.Name s = ((some ex, some e), s1))
    (hnf : IsNotFound (some e) = true) (hae : IsAlreadyExists (some e) = false)
    (hcreate : kc.CronJobsCreate cronJobSpec.Namespace cronJobSpec s1
      = ((generatedJob, some e2), s2))
    (hae2 : IsAlreadyExists (some e2) = true) :
    ((NewJobsCreator kc).CreateCronJob cronJobSpec s).result
      = .returned (ex.Name, ex.Namespace, some ErrAlreadyExists) := by
  simp [JobsCreator.CreateCronJob, NewJobsCreator, hget, hnf, hae, hcreate, hae2]

/-- In the control plane, a CronJob created where none of its identity was stored is found afterwards. -/
theorem findCronJob_after_create (c : Cluster) (spec : CronJob)
    (h : c.findCronJob spec.Namespace spec.Name = none) :
    Cluster.findCronJob { c with cronJobs := c.cronJobs ++ [{ spec with Namespace := spec.Namespace }] }
        spec.Namespace spec.Name
      = some { spec with Namespace := spec.Namespace } := by
  simp only [Cluster.findCronJob] at h ⊢
  simp [List.find?_append, h]

/-- C2, evaluated: against a cluster that stores no Job, CreateJob for the Job
backup-once in ops returns (backup-once, ops) and no error; called again on the
resulting cluster it issues the get and the create request and returns the empty
identity with the conflict of the create request wrapped as a creation failure,
which is not ErrAlreadyExists and does not have it among its causes. -/
theorem CreateJob_twice_second_call_fails :
    ((NewJobsCreator (clusterClient strategicMergePatch)).CreateJob
        { Name := "backup-once", Namespace := "ops" } {}).result
      = .returned ("backup-once", "ops", none)
    ∧ ((NewJobsCreator (clusterClient strategicMergePatch)).CreateJob
        { Name := "backup-once", Namespace := "ops" }
        ((NewJobsCreator (clusterClient strategicMergePatch)).CreateJob
          { Name := "backup-once", Namespace := "ops" } {}).state).result
      = .returned ("", "", some (.wrapError
          "failed to create Job: jobs.batch backup-once already exists"
          (alreadyExistsError "jobs.batch" "backup-once")))
    ∧ errorsIs (.wrapError "failed to create Job: jobs.batch backup-once already exists"
          (alreadyExistsError "jobs.batch" "backup-once")) ErrAlreadyExists = false := by
  refine ⟨by rfl, by rfl, by rfl⟩

/-- C3, evaluated: when the existence query of CreateJob reports not-found and
a concurrent creator stores the same Job before the create request, the create
request reports already-exists and CreateJob returns the empty identity with
that conflict wrapped as a creation failure, not ErrAlreadyExists. -/
theorem CreateJob_race_conflict_is_creation_failure :
    ((NewJobsCreator (racingClient (clusterClient strategicMergePatch)
          (rivalCreatesJob { Name := "backup-once", Namespace := "ops" }))).CreateJob
        { Name := "backup-once", Namespace := "ops" } {}).result
      = .returned ("", "", some (.wrapError
          "failed to create Job: jobs.batch backup-once already exists"
          (alreadyExistsError "jobs.batch" "backup-once")))
    ∧ IsAlreadyExists (some (alreadyExistsError "jobs.batch" "backup-once")) = true
    ∧ GoError.wrapError "failed to create Job: jobs.batch backup-once already exists"
          (alreadyExistsError "jobs.batch" "backup-once") ≠ ErrAlreadyExists := by
  refine ⟨by rfl, by rfl, by decide⟩

/-- C4: against a cluster that stores no CronJob of the spec's identity,
CreateCronJob returns the spec's (name, namespace) and no error, and called
again on the resulting cluster it returns the same (name, namespace) with
ErrAlreadyExists; this holds for every identity and every content of the rest
of the cluster. -/
theorem CreateCronJob_twice_created_then_already_existed
    (applyPatch : PatchType → Json → CronJob → CronJob) (c : Cluster) (cronJobSpec : CronJob)
    (habsent : c.findCronJob cronJobSpec.Namespace cronJobSpec.Name = none) :
    ((NewJobsCreator (clusterClient applyPatch)).CreateCronJob cronJobSpec c).result
      = .returned (cronJobSpec.Name, cronJobSpec.Namespace, none)
    ∧ ((NewJobsCreator (clusterClient applyPatch)).CreateCronJob cronJobSpec
        ((NewJobsCreator (clusterClient applyPatch)).CreateCronJob cronJobSpec c).state).result
      = .returned (cronJobSpec.Name, cronJobSpec.Namespace, some ErrAlreadyExists) := by
  have hfound := findCronJob_after_create c cronJobSpec habsent
  have hnf := notFoundError_kind "cronjobs.batch" cronJobSpec.Name
  have hae := alreadyExistsError_kind "cronjobs.batch" cronJobSpec.Name
  have hfirst : (NewJobsCreator (clusterClient applyPatch)).CreateCronJob cronJobSpec c
      = ⟨.returned (cronJobSpec.Name, cronJobSpec.Namespace, none),
          { c with cronJobs := c.cronJobs ++ [{ cronJobSpec with Namespace := cronJobSpec.Namespace }] },
          [Request.CronJobsGet cronJobSpec.Namespace cronJobSpec.Name,
           Request.CronJobsCreate cronJobSpec.Namespace cronJobSpec]⟩ := by
    simp [JobsCreator.CreateCronJob, NewJobsCreator, clusterClient, habsent, hnf.1, hnf.2,
      IsAlreadyExists_nil]
  refine ⟨by rw [hfirst], ?_⟩
  rw [hfirst]
  simp [JobsCreator.CreateCronJob, NewJobsCreator, clusterClient, hfound, hae.1,
    IsAlreadyExists_nil, IsNotFound_nil]

/-- C4 at the CronJob nightly-backup in the namespace ops, against the empty cluster. -/
theorem CreateCronJob_twice_nightly_backup :
    Cluster.findCronJob {} "ops" "nightly-backup" = none
    ∧ ((NewJobsCreator (clusterClient strategicMergePatch)).CreateCronJob
        { Name := "nightly-backup", Namespace := "ops", Schedule := "0 3 * * *" } {}).result
      = .returned ("nightly-backup", "ops", none)
    ∧ ((NewJobsCreator (clusterClient strategicMergePatch)).CreateCronJob
        { Name := "nightly-backup", Namespace := "ops", Schedule := "0 3 * * *" }
        ((NewJobsCreator (clusterClient strategicMergePatch)).CreateCronJob
          { Name := "nightly-backup", Namespace := "ops", Schedule := "0 3 * * *" } {}).state).result
      = .returned ("nightly-backup", "ops", some ErrAlreadyExists) :=
  ⟨by rfl, CreateCronJob_twice_created_then_already_existed strategicMergePatch {}
    { Name := "nightly-backup", Namespace := "ops", Schedule := "0 3 * * *" } (by rfl)⟩

/-- C5, evaluated: when the existence query of CreateCronJob reports not-found
(its result is the empty object) and a concurrent creator stores the same
CronJob before the create request, CreateCronJob returns ErrAlreadyExists with
the identity read from the result of the failed query, which is the empty
(name, namespace) and not (nightly-backup, ops). -/
theorem CreateCronJob_race_returns_empty_identity :
    ((NewJobsCreator (racingClient (clusterClient strategicMergePatch)
          (rivalCreatesCronJob { Name := "nightly-backup", Namespace := "ops" }))).CreateCronJob
        { Name := "nightly-backup", Namespace := "ops" } {}).result
      = .returned ("", "", some ErrAlreadyExists)
    ∧ (((clusterClient strategicMergePatch).CronJobsGet "ops" "nightly-backup" {}).1
        = (some {}, some (notFoundError "cronjobs.batch" "nightly-backup"))) := by
  refine ⟨by rfl, by rfl⟩

/-- C6, evaluated: against a cluster that stores the Job backup-once and the
CronJob nightly-backup in ops, the existence query finds the object and reports
no error, and yet both operations issue the create request; CreateJob then
returns the empty identity with the wrapped conflict, CreateCronJob returns the
identity with ErrAlreadyExists only after the create request reported the
conflict. -/
theorem found_resource_still_issues_create :
    ((clusterClient strategicMergePatch).JobsGet "ops" "backup-once"
        { jobs := [{ Name := "backup-once", Namespace := "ops" }] }).1
      = (some { Name := "backup-once", Namespace := "ops" }, none)
    ∧ ((NewJobsCreator (clusterClient strategicMergePatch)).CreateJob
        { Name := "backup-once", Namespace := "ops" }
        { jobs := [{ Name := "backup-once", Namespace := "ops" }] }).requests
      = [Request.JobsGet "ops" "backup-once",
         Request.JobsCreate "ops" { Name := "backup-once", Namespace := "ops" }]
    ∧ ((NewJobsCreator (clusterClient strategicMergePatch)).CreateJob
        { Name := "backup-once", Namespace := "ops" }
        { jobs := [{ Name := "backup-once", Namespace := "ops" }] }).result
      = .returned ("", "", some (.wrapError
          "failed to create Job: jobs.batch backup-once already exists"
          (alreadyExistsError "jobs.batch" "backup-once")))
    ∧ ((clusterClient strategicMergePatch).CronJobsGet "ops" "nightly-backup"
        { cronJobs := [{ Name := "nightly-backup", Namespace := "ops" }] }).1
      = (some { Name := "nightly-backup", Namespace := "ops" }, none)
    ∧ ((NewJobsCreator (clusterClient strategicMergePatch)).CreateCronJob
        { Name := "nightly-backup", Namespace := "ops" }
        { cronJobs := [{ Name := "nightly-backup", Namespace := "ops" }] }).requests
      = [Request.CronJobsGet "ops" "nightly-backup",
         Request.CronJobsCreate "ops" { Name := "nightly-backup", Namespace := "ops" }]
    ∧ ((NewJobsCreator (clusterClient strategicMergePatch)).CreateCronJob
        { Name := "nightly-backup", Namespace := "ops" }
        { cronJobs := [{ Name := "nightly-backup", Namespace := "ops" }] }).result
      = .returned ("nightly-backup", "ops", some ErrAlreadyExists) := by
  refine ⟨by rfl, by rfl, by rfl, by rfl, by rfl, by rfl⟩

/-- The fields of a struct marshal when each field's value does. -/
theorem marshalFields_ok (fields : List (String × Bool × GoValue))
    (h : ∀ f ∈ fields, ∃ j, jsonMarshal f.2.2 = .ok j) :
    ∃ js, marshalFields fields = .ok js := by
  induction fields with
  | nil => exact ⟨[], rfl⟩
  | cons f rest ih =>
    obtain ⟨k, omitempty, x⟩ := f
    obtain ⟨js, hjs⟩ := ih (fun g hg => h g (List.mem_cons_of_mem _ hg))
    obtain ⟨j, hj⟩ := h (k, omitempty, x) (List.mem_cons_self _ _)
    simp only at hj
    by_cases hskip : (omitempty && isEmptyValue x) = true
    · exact ⟨js, by simp [marshalFields, hskip, hjs]⟩
    · exact ⟨(k, j) :: js, by
        simp [marshalFields, hskip, hj, hjs, bind, Except.bind, pure, Except.pure]⟩

/-- A struct marshals when each field's value does. -/
theorem marshal_struct_ok (fields : List (String × Bool × GoValue))
    (h : ∀ f ∈ fields, ∃ j, jsonMarshal f.2.2 = .ok j) :
    ∃ j, jsonMarshal (.struct fields) = .ok j := by
  obtain ⟨js, hjs⟩ := marshalFields_ok fields h
  exact ⟨.object js, by simp [jsonMarshal, hjs, Except.map]⟩

/-- A pointer marshals when what it may point to does. -/
theorem marshal_pointerValue_ok {α : Type} (f : α → GoValue) (p : Option α)
    (h : ∀ a, ∃ j, jsonMarshal (f a) = .ok j) :
    ∃ j, jsonMarshal (pointerValue f p) = .ok j := by
  cases p with
  | none => exact ⟨.null, rfl⟩
  | some a =>
    obtain ⟨j, hj⟩ := h a
    exact ⟨j, by simp [pointerValue, jsonMarshal, hj]⟩

/-- A text always marshals. -/
theorem marshal_string_ok (t : String) : ∃ j, jsonMarshal (.string t) = .ok j :=
  ⟨.string t, rfl⟩

/-- Marshalling succeeds on every ObjectFieldSelector. -/
theorem marshal_ObjectFieldSelector (x : ObjectFieldSelector) :
    ∃ j, jsonMarshal x.toGoValue = .ok j := by
  apply marshal_struct_ok
  intro f hf
  simp only [List.mem_cons, List.mem_singleton, List.not_mem_nil, or_false] at hf
  rcases hf with rfl | rfl <;> exact marshal_string_ok _

/-- Marshalling succeeds on every ResourceFieldSelector. -/
theorem marshal_ResourceFieldSelector (x : ResourceFieldSelector) :
    ∃ j, jsonMarshal x.toGoValue = .ok j := by
  apply marshal_struct_ok
  intro f hf
  simp only [List.mem_cons, List.mem_singleton, List.not_mem_nil, or_false] at hf
  rcases hf with rfl | rfl | rfl
  · exact marshal_string_ok _
  · exact marshal_string_ok _
  · exact ⟨.string x.Divisor, rfl⟩

/-- Marshalling succeeds on every ConfigMapKeySelector. -/
theorem marshal_ConfigMapKeySelector (x : ConfigMapKeySelector) :
    ∃ j, jsonMarshal x.toGoValue = .ok j := by
  apply marshal_struct_ok
  intro f hf
  simp only [List.mem_cons, List.mem_singleton, List.not_mem_nil, or_false] at hf
  rcases hf with rfl | rfl | rfl
  · exact marshal_string_ok _
  · exact marshal_string_ok _
  · exact marshal_pointerValue_ok _ _ (fun b => ⟨.bool b, rfl⟩)

/-- Marshalling succeeds on every SecretKeySelector. -/
theorem marshal_SecretKeySelector (x : SecretKeySelector) :
    ∃ j, jsonMarshal x.toGoValue = .ok j := by
  apply marshal_struct_ok
  intro f hf
  simp only [List.mem_cons, List.mem_singleton, List.not_mem_nil, or_false] at hf
  rcases hf with rfl | rfl | rfl
  · exact marshal_string_ok _
  · exact marshal_string_ok _
  · exact marshal_pointerValue_ok _ _ (fun b => ⟨.bool b, rfl⟩)

/-- Marshalling succeeds on every EnvVarSource. -/
theorem marshal_EnvVarSource (x : EnvVarSource) :
    ∃ j, jsonMarshal x.toGoValue = .ok j := by
  apply marshal_struct_ok
  intro f hf
  simp only [List.mem_cons, List.mem_singleton, List.not_mem_nil, or_false] at hf
  rcases hf with rfl | rfl | rfl | rfl
  · exact marshal_pointerValue_ok _ _ marshal_ObjectFieldSelector
  · exact marshal_pointerValue_ok _ _ marshal_ResourceFieldSelector
  · exact marshal_pointerValue_ok _ _ marshal_ConfigMapKeySelector
  · exact marshal_pointerValue_ok _ _ marshal_SecretKeySelector

/-- Marshalling succeeds on every EnvVar, whatever its name and value. -/
theorem marshal_EnvVar (x : EnvVar) : ∃ j, jsonMarshal x.toGoValue = .ok j := by
  apply marshal_struct_ok
  intro f hf
  simp only [List.mem_cons, List.mem_singleton, List.not_mem_nil, or_false] at hf
  rcases hf with rfl | rfl | rfl
  · exact marshal_string_ok _
  · exact marshal_string_ok _
  · exact marshal_pointerValue_ok _ _ marshal_EnvVarSource

/-- An EnvVar that holds a name and a non-empty value and no source marshals
to the object of its name and its value. -/
theorem marshal_plain_EnvVar (name value : String) (hv : value ≠ "") :
    jsonMarshal (EnvVar.toGoValue { Name := name, Value := value })
      = .ok (.object [("name", .string name), ("value", .string value)]) := by
  simp [EnvVar.toGoValue, pointerValue, jsonMarshal, marshalFields, isEmptyValue, hv,
    Except.map, bind, Except.bind, pure, Except.pure]

/-- A slice of EnvVar marshals to one item per entry, in order: the i-th item
is what the i-th entry marshals to. -/
theorem marshalElems_EnvVars (envs : List EnvVar) :
    ∃ items, marshalElems (envs.map EnvVar.toGoValue) = .ok items
      ∧ List.Forall₂ (fun e j => jsonMarshal e.toGoValue = .ok j) envs items := by
  induction envs with
  | nil => exact ⟨[], rfl, List.Forall₂.nil⟩
  | cons e rest ih =>
    obtain ⟨items, hitems, hall⟩ := ih
    obtain ⟨j, hj⟩ := marshal_EnvVar e
    exact ⟨j :: items, by
      simp [marshalElems, hj, hitems, bind, Except.bind, pure, Except.pure],
      List.Forall₂.cons hj hall⟩

/-- The environment list of the patch marshals: nil to null, a slice to the
array of its entries' documents, in order. -/
theorem marshal_envVarsValue (newEnvs : Option (List EnvVar)) :
    ∃ env, jsonMarshal (envVarsValue newEnvs) = .ok env
      ∧ (newEnvs = none → env = .null)
      ∧ (∀ envs, newEnvs = some envs →
          ∃ items, env = .array items
            ∧ List.Forall₂ (fun e j => jsonMarshal e.toGoValue = .ok j) envs items) := by
  cases newEnvs with
  | none => exact ⟨.null, rfl, fun _ => rfl, fun envs h => by cases h⟩
  | some envs =>
    obtain ⟨items, hitems, hall⟩ := marshalElems_EnvVars envs
    refine ⟨.array items, by simp [envVarsValue, jsonMarshal, hitems, Except.map], ?_, ?_⟩
    · intro h; cases h
    · intro envs2 h
      cases h
      exact ⟨items, rfl, hall⟩

/-- The patch literal marshals to the patch document around the JSON of its environment list. -/
theorem marshal_patchLiteral (newEnvs : Option (List EnvVar)) (env : Json)
    (henv : jsonMarshal (envVarsValue newEnvs) = .ok env) :
    jsonMarshal (patchLiteral newEnvs) = .ok (patchDocument env) := by
  have hk : keyLess "name" "env" = false := by decide
  simp [patchLiteral, patchDocument, jsonMarshal, marshalEntries, marshalElems, insertMember,
    henv, hk, Except.map, bind, Except.bind, pure, Except.pure]

/-- An error is itself, for errors.Is. -/
theorem errorsIs_self (e : GoError) : errorsIs e e = true := by
  cases e <;> simp [errorsIs]

/-- An error made with the verb w has its cause along its chain. -/
theorem errorsIs_wrapError_cause (text : String) (cause : GoError) :
    errorsIs (.wrapError text cause) cause = true := by
  simp [errorsIs, errorsIs_self]

/-- C7, refuted as stated: an existence query of CreateJob that fails with an
already-exists status error, which is no not-found error, is answered with the
identity of the returned object and ErrAlreadyExists, which does not wrap the
error of the query; and an existence query of CreateCronJob that fails with a
forbidden error is answered with a plain error that has no cause, so errors.Is
does not find the error of the query in it. -/
theorem existence_query_error_not_always_wrapped :
    IsNotFound (some (.statusError StatusReasonAlreadyExists 409 "already there")) = false
    ∧ ((NewJobsCreator (failingClient
          (.statusError StatusReasonAlreadyExists 409 "already there"))).CreateJob
        { Name := "backup-once", Namespace := "ops" } ()).result
      = .returned ("", "", some ErrAlreadyExists)
    ∧ errorsIs ErrAlreadyExists (.statusError StatusReasonAlreadyExists 409 "already there")
      = false
    ∧ IsNotFound (some (.statusError StatusReasonForbidden 403 "forbidden")) = false
    ∧ ((NewJobsCreator (failingClient
          (.statusError StatusReasonForbidden 403 "forbidden"))).CreateCronJob
        { Name := "nightly-backup", Namespace := "ops" } ()).result
      = .returned ("", "",
          some (.errorString "failed to check cj nightly-backup existence: forbidden"))
    ∧ errorsIs (.errorString "failed to check cj nightly-backup existence: forbidden")
        (.statusError StatusReasonForbidden 403 "forbidden") = false
    ∧ GoError.Unwrap (.errorString "failed to check cj nightly-backup existence: forbidden")
      = none := by
  refine ⟨by rfl, by rfl, by rfl, by rfl, by rfl, by rfl, by rfl⟩

/-- C7, amended: when the existence query fails with an error that is neither
a not-found nor an already-exists error, CreateJob and CreateCronJob issue no
request but the query and return the empty identity with an error whose message
is the check failure naming the resource followed by the message of the query's
error; the error CreateJob returns wraps the query's error, so that errors.Is
finds it and Unwrap yields it. -/
theorem existence_query_failure_returned_without_create
    (σ τ : Type) (kcJ : IKubeClient σ) (kcC : IKubeClient τ) (s s1 : σ) (t t1 : τ)
    (jobSpec : Job) (cronJobSpec : CronJob) (exJ : Option Job) (exC : Option CronJob)
    (eJ eC : GoError)
    (hJ : kcJ.JobsGet jobSpec.Namespace jobSpec.Name s = ((exJ, some eJ), s1))
    (hJnf : IsNotFound (some eJ) = false) (hJae : IsAlreadyExists (some eJ) = false)
    (hC : kcC.CronJobsGet cronJobSpec.Namespace cronJobSpec.Name t = ((exC, some eC), t1))
    (hCnf : IsNotFound (some eC) = false) (hCae : IsAlreadyExists (some eC) = false) :
    ((NewJobsCreator kcJ).CreateJob jobSpec s).requests
        = [Request.JobsGet jobSpec.Namespace jobSpec.Name]
    ∧ (∃ err, ((NewJobsCreator kcJ).CreateJob jobSpec s).result = .returned ("", "", some err)
        ∧ err.Error = "failed to check cj " ++ jobSpec.Name ++ " existence: " ++ eJ.Error
        ∧ errorsIs err eJ = true
        ∧ err.Unwrap = some eJ)
    ∧ ((NewJobsCreator kcC).CreateCronJob cronJobSpec t).requests
        = [Request.CronJobsGet cronJobSpec.Namespace cronJobSpec.Name]
    ∧ (∃ err, ((NewJobsCreator kcC).CreateCronJob cronJobSpec t).result
          = .returned ("", "", some err)
        ∧ err.Error
          = "failed to check cj " ++ cronJobSpec.Name ++ " existence: " ++ eC.Error) := by
  refine ⟨?_, ⟨.wrapError
      ("failed to check cj " ++ jobSpec.Name ++ " existence: " ++ eJ.Error) eJ, ?_, rfl,
      errorsIs_wrapError_cause _ _, rfl⟩, ?_, ⟨.errorString
      ("failed to check cj " ++ cronJobSpec.Name ++ " existence: " ++ eC.Error), ?_, rfl⟩⟩
  · simp [JobsCreator.CreateJob, NewJobsCreator, hJ, hJnf, hJae]
  · simp [JobsCreator.CreateJob, NewJobsCreator, hJ, hJnf, hJae]
  · simp [JobsCreator.CreateCronJob, NewJobsCreator, hC, hCnf, hCae]
  · simp [JobsCreator.CreateCronJob, NewJobsCreator, hC, hCnf, hCae]

/-- C7, amended, at a query that fails with a forbidden error for the Job
backup-once and the CronJob nightly-backup in ops. -/
theorem existence_query_forbidden_returned_without_create :
    ((NewJobsCreator (failingClient (.statusError StatusReasonForbidden 403 "forbidden"))).CreateJob
        { Name := "backup-once", Namespace := "ops" } ()).requests
        = [Request.JobsGet "ops" "backup-once"]
    ∧ (∃ err, ((NewJobsCreator
          (failingClient (.statusError StatusReasonForbidden 403 "forbidden"))).CreateJob
          { Name := "backup-once", Namespace := "ops" } ()).result = .returned ("", "", some err)
        ∧ err.Error = "failed to check cj " ++ "backup-once" ++ " existence: " ++ "forbidden"
        ∧ errorsIs err (.statusError StatusReasonForbidden 403 "forbidden") = true
        ∧ err.Unwrap = some (.statusError StatusReasonForbidden 403 "forbidden"))
    ∧ ((NewJobsCreator
          (failingClient (.statusError StatusReasonForbidden 403 "forbidden"))).CreateCronJob
        { Name := "nightly-backup", Namespace := "ops" } ()).requests
        = [Request.CronJobsGet "ops" "nightly-backup"]
    ∧ (∃ err, ((NewJobsCreator
          (failingClient (.statusError StatusReasonForbidden 403 "forbidden"))).CreateCronJob
          { Name := "nightly-backup", Namespace := "ops" } ()).result
          = .returned ("", "", some err)
        ∧ err.Error
          = "failed to check cj " ++ "nightly-backup" ++ " existence: " ++ "forbidden") :=
  existence_query_failure_returned_without_create Unit Unit
    (failingClient (.statusError StatusReasonForbidden 403 "forbidden"))
    (failingClient (.statusError StatusReasonForbidden 403 "forbidden")) () () () ()
    { Name := "backup-once", Namespace := "ops" } { Name := "nightly-backup", Namespace := "ops" }
    (some {}) (some {}) (.statusError StatusReasonForbidden 403 "forbidden")
    (.statusError StatusReasonForbidden 403 "forbidden")
    (by rfl) (by rfl) (by rfl) (by rfl) (by rfl) (by rfl)

/-- C9: for every name, namespace and environment list, nil and empty ones and
entries with empty names or values included, marshalling the patch body
succeeds, so UpdateCronJob does not panic: it issues exactly the patch request,
with the marshalled document as a strategic merge patch, and returns the error
of that call, nil when the call succeeds; against a control plane that does not
store the CronJob this is its not-found error. -/
theorem UpdateCronJob_marshals_and_returns_patch_error :
    (∀ (σ : Type) (kc : IKubeClient σ) (cronJobName cronJobNamespace : String)
        (newEnvs : Option (List EnvVar)) (s : σ),
        ∃ patchBytes, jsonMarshal (patchLiteral newEnvs) = .ok patchBytes
          ∧ ((NewJobsCreator kc).UpdateCronJob cronJobName cronJobNamespace newEnvs s).requests
            = [Request.CronJobsPatch cronJobNamespace cronJobName
                PatchType.StrategicMergePatchType patchBytes]
          ∧ ((NewJobsCreator kc).UpdateCronJob cronJobName cronJobNamespace newEnvs s).result
            = .returned (kc.CronJobsPatch cronJobNamespace cronJobName
                PatchType.StrategicMergePatchType patchBytes s).1.2
          ∧ ((NewJobsCreator kc).UpdateCronJob cronJobName cronJobNamespace newEnvs s).state
            = (kc.CronJobsPatch cronJobNamespace cronJobName
                PatchType.StrategicMergePatchType patchBytes s).2)
    ∧ (∀ (cronJobName cronJobNamespace : String) (newEnvs : Option (List EnvVar)),
        ((NewJobsCreator (clusterClient strategicMergePatch)).UpdateCronJob
            cronJobName cronJobNamespace newEnvs {}).result
          = .returned (some (notFoundError "cronjobs.batch" cronJobName)))
    ∧ ((NewJobsCreator (clusterClient strategicMergePatch)).UpdateCronJob
          "nightly-backup" "ops" (some [{ Name := "", Value := "" }])
          { cronJobs := [{ Name := "nightly-backup", Namespace := "ops" }] }).result
        = .returned none := by
  have hgen : ∀ (σ : Type) (kc : IKubeClient σ) (cronJobName cronJobNamespace : String)
      (newEnvs : Option (List EnvVar)) (s : σ),
      ∃ patchBytes, jsonMarshal (patchLiteral newEnvs) = .ok patchBytes
        ∧ ((NewJobsCreator kc).UpdateCronJob cronJobName cronJobNamespace newEnvs s).requests
          = [Request.CronJobsPatch cronJobNamespace cronJobName
              PatchType.StrategicMergePatchType patchBytes]
        ∧ ((NewJobsCreator kc).UpdateCronJob cronJobName cronJobNamespace newEnvs s).result
          = .returned (kc.CronJobsPatch cronJobNamespace cronJobName
              PatchType.StrategicMergePatchType patchBytes s).1.2
        ∧ ((NewJobsCreator kc).UpdateCronJob cronJobName cronJobNamespace newEnvs s).state
          = (kc.CronJobsPatch cronJobNamespace cronJobName
              PatchType.StrategicMergePatchType patchBytes s).2 := by
    intro σ kc cronJobName cronJobNamespace newEnvs s
    obtain ⟨env, henv, -, -⟩ := marshal_envVarsValue newEnvs
    have hdoc := marshal_patchLiteral newEnvs env henv
    refine ⟨patchDocument env, hdoc, ?_, ?_, ?_⟩
    all_goals
      rcases hp : kc.CronJobsPatch cronJobNamespace cronJobName
        PatchType.StrategicMergePatchType (patchDocument env) s with ⟨⟨obj, err⟩, s1⟩
      unfold JobsCreator.UpdateCronJob NewJobsCreator
      simp only [hdoc, hp]
      cases err <;> rfl
  refine ⟨hgen, ?_, ?_⟩
  · intro cronJobName cronJobNamespace newEnvs
    obtain ⟨doc, -, -, hres, -⟩ :=
      hgen Cluster (clusterClient strategicMergePatch) cronJobName cronJobNamespace newEnvs {}
    rw [hres]
    rfl
  · obtain ⟨doc, -, -, hres, -⟩ :=
      hgen Cluster (clusterClient strategicMergePatch) "nightly-backup" "ops"
        (some [{ Name := "", Value := "" }])
        { cronJobs := [{ Name := "nightly-backup", Namespace := "ops" }] }
    rw [hres]
    rfl

/-- C8, refuted as stated: against a control plane that stores the CronJob
nightly-backup in ops, whose container backup-job has the entries A=1 and B=2,
and applies the strategic merge patch the way Kubernetes declares it for the env
list, UpdateCronJob with the entries B=3 and C=4 succeeds and leaves the
container with A=1, B=3, C=4: A is preserved, so the environment is not exactly
B=3, C=4. -/
theorem UpdateCronJob_patch_keeps_unnamed_entries :
    ((NewJobsCreator (clusterClient strategicMergePatch)).UpdateCronJob "nightly-backup" "ops"
        (some [{ Name := "B", Value := "3" }, { Name := "C", Value := "4" }])
        { cronJobs := [{ Name := "nightly-backup", Namespace := "ops", Containers := [
            { Name := "backup-job", Env := [
              { Name := "A", Value := "1" }, { Name := "B", Value := "2" }] }] }] }).result
      = .returned none
    ∧ (((NewJobsCreator (clusterClient strategicMergePatch)).UpdateCronJob "nightly-backup" "ops"
        (some [{ Name := "B", Value := "3" }, { Name := "C", Value := "4" }])
        { cronJobs := [{ Name := "nightly-backup", Namespace := "ops", Containers := [
            { Name := "backup-job", Env := [
              { Name := "A", Value := "1" }, { Name := "B", Value := "2" }] }] }] }).state.findCronJob
          "ops" "nightly-backup").map (fun cj => cj.Containers)
      ≠ some [{ Name := "backup-job", Env := [
          { Name := "B", Value := "3" }, { Name := "C", Value := "4" }] }]
    ∧ (∃ cj, ((NewJobsCreator (clusterClient strategicMergePatch)).UpdateCronJob
          "nightly-backup" "ops"
          (some [{ Name := "B", Value := "3" }, { Name := "C", Value := "4" }])
          { cronJobs := [{ Name := "nightly-backup", Namespace := "ops", Containers := [
              { Name := "backup-job", Env := [
                { Name := "A", Value := "1" }, { Name := "B", Value := "2" }] }] }] }).state.findCronJob
            "ops" "nightly-backup" = some cj
        ∧ ∃ c ∈ cj.Containers, ({ Name := "A", Value := "1" } : EnvVar) ∈ c.Env) := by
  refine ⟨by rfl, by decide, ⟨_, by rfl, _, List.mem_cons_self _ _, List.mem_cons_self _ _⟩⟩

/-- Once the patch literal marshals to a document, UpdateCronJob issues
exactly one request: the strategic merge patch with that document. -/
theorem UpdateCronJob_requests (σ : Type) (kc : IKubeClient σ)
    (cronJobName cronJobNamespace : String) (newEnvs : Option (List EnvVar)) (s : σ) (doc : Json)
    (hdoc : jsonMarshal (patchLiteral newEnvs) = .ok doc) :
    ((NewJobsCreator kc).UpdateCronJob cronJobName cronJobNamespace newEnvs s).requests
      = [Request.CronJobsPatch cronJobNamespace cronJobName
          PatchType.StrategicMergePatchType doc] := by
  rcases hp : kc.CronJobsPatch cronJobNamespace cronJobName
    PatchType.StrategicMergePatchType doc s with ⟨⟨obj, err⟩, s1⟩
  unfold JobsCreator.UpdateCronJob NewJobsCreator
  simp only [hdoc, hp]
  cases err <;> rfl

/-- C8, amended: UpdateCronJob sends one strategic merge patch whose document
reaches spec.jobTemplate.spec.template.spec.containers and holds exactly one
container entry, named backup-job, whose env is the JSON of newEnvs, entry by
entry in order (null for the nil list; name and value for B=3 and C=4); and a
control plane that merges the env list by entry name, as Kubernetes declares for
the env of a container, makes of the entries A=1, B=2 under the patch B=3, C=4
the entries A=1, B=3, C=4: B is overridden, C is added and A is preserved. -/
theorem UpdateCronJob_sends_env_patch_merged_by_name :
    (∀ (σ : Type) (kc : IKubeClient σ) (cronJobName cronJobNamespace : String) (s : σ),
        ((NewJobsCreator kc).UpdateCronJob cronJobName cronJobNamespace none s).requests
          = [Request.CronJobsPatch cronJobNamespace cronJobName
              PatchType.StrategicMergePatchType (patchDocument .null)])
    ∧ (∀ (σ : Type) (kc : IKubeClient σ) (cronJobName cronJobNamespace : String)
        (envs : List EnvVar) (s : σ),
        ∃ items,
          ((NewJobsCreator kc).UpdateCronJob cronJobName cronJobNamespace (some envs) s).requests
            = [Request.CronJobsPatch cronJobNamespace cronJobName
                PatchType.StrategicMergePatchType (patchDocument (.array items))]
          ∧ List.Forall₂ (fun e j => jsonMarshal e.toGoValue = .ok j) envs items)
    ∧ (∀ (σ : Type) (kc : IKubeClient σ) (cronJobName cronJobNamespace : String) (s : σ),
        ((NewJobsCreator kc).UpdateCronJob cronJobName cronJobNamespace
            (some [{ Name := "B", Value := "3" }, { Name := "C", Value := "4" }]) s).requests
          = [Request.CronJobsPatch cronJobNamespace cronJobName
              PatchType.StrategicMergePatchType
              (.object [("spec", .object [("jobTemplate", .object [("spec", .object [("template",
                .object [("spec", .object [("containers", .array [
                  .object [("env", .array [
                      .object [("name", .string "B"), ("value", .string "3")],
                      .object [("name", .string "C"), ("value", .string "4")]]),
                    ("name", .string "backup-job")] ])])])])])])])])
    ∧ ((NewJobsCreator (clusterClient strategicMergePatch)).UpdateCronJob "nightly-backup" "ops"
        (some [{ Name := "B", Value := "3" }, { Name := "C", Value := "4" }])
        { cronJobs := [{ Name := "nightly-backup", Namespace := "ops", Containers := [
            { Name := "backup-job", Env := [
              { Name := "A", Value := "1" }, { Name := "B", Value := "2" }] }] }] }).state
      = { cronJobs := [{ Name := "nightly-backup", Namespace := "ops", Containers := [
            { Name := "backup-job", Env := [
              { Name := "A", Value := "1" }, { Name := "B", Value := "3" },
              { Name := "C", Value := "4" }] }] }] } := by
  refine ⟨?_, ?_, ?_, by rfl⟩
  · intro σ kc cronJobName cronJobNamespace s
    exact UpdateCronJob_requests σ kc cronJobName cronJobNamespace none s _
      (marshal_patchLiteral none .null rfl)
  · intro σ kc cronJobName cronJobNamespace envs s
    obtain ⟨items, hitems, hall⟩ := marshalElems_EnvVars envs
    refine ⟨items, ?_, hall⟩
    exact UpdateCronJob_requests σ kc cronJobName cronJobNamespace (some envs) s _
      (marshal_patchLiteral (some envs) (.array items)
        (by simp [envVarsValue, jsonMarshal, hitems, Except.map]))
  · intro σ kc cronJobName cronJobNamespace s
    exact UpdateCronJob_requests σ kc cronJobName cronJobNamespace _ s _ (by rfl)

end Backup
